import Mathlib

/-
Verification of the IAM service's credential and session lifecycle engine.

This file gives a shallow embedding, in Lean 4, of the security-critical parts
of the repository:

  * `app/core/security.py` (user_service tree) - password verification and
    JWT-style access-token creation/decoding,
  * `app/schemas/auth.py` (top-level tree) - the `TokenPayload` schema that
    decoding validates into,
  * `app/services/auth.py` (top-level tree) - login, refresh-token rotation
    and client-credentials issuance,
  * `app/repositories/refresh_token.py` (top-level tree) - the refresh-token
    store operations,
  * `app/core/permissions.py` (user_service tree) - the permission checker,
  * `app/dependencies/auth.py` (top-level tree) - principal resolution.

Conventions of the embedding:

  * Timestamps are modelled as integers (Unix seconds), matching the code's
    use of `int(datetime.timestamp())` for token claims; timezone
    normalisation in the Python code is a no-op under this model.
  * UUIDs are modelled as `Nat` where only identity matters (jti, user ids)
    and as `String` where the code stores them in string payloads.
  * Randomness (fresh refresh secrets, fresh jtis) is modelled by passing the
    generated values as explicit arguments.
  * The HMAC-SHA256 refresh-token hash and the Argon2 password primitive are
    third-party primitives; they are modelled as explicit function arguments,
    and theorems state exactly which of their properties (such as hash
    uniqueness for distinct fresh secrets) are assumed.
  * JSON payloads (Python dicts) are association lists of string keys and
    `JVal` values.
-/

/-- JSON-like value stored in a token payload dict. String lists cover the
`roles` and `permissions` claims. -/
inductive JVal where
  | str (v : String)
  | int (v : Int)
  | bool (v : Bool)
  | arr (v : List String)
  | null
deriving DecidableEq

instance {ε α : Type} [DecidableEq ε] [DecidableEq α] : DecidableEq (Except ε α) := fun x y =>
  match x, y with
  | .ok a, .ok b =>
      if h : a = b then .isTrue (h ▸ rfl) else .isFalse (fun hc => h (Except.ok.inj hc))
  | .error a, .error b =>
      if h : a = b then .isTrue (h ▸ rfl) else .isFalse (fun hc => h (Except.error.inj hc))
  | .ok _, .error _ => .isFalse (fun hc => Except.noConfusion hc)
  | .error _, .ok _ => .isFalse (fun hc => Except.noConfusion hc)

/-- First-match lookup in a payload dict (keys are unique by construction,
mirroring Python dict semantics). -/
def dictGet (d : List (String × JVal)) (k : String) : Option JVal :=
  (d.find? (fun kv => kv.1 = k)).map (fun kv => kv.2)

/-- Python `dict.update`: entries of `extra` override entries of `base` with
the same key. Overridden keys move to the `extra` block, which is
lookup-equivalent to Python's in-place update because keys are unique. -/
def dictUpdate (base extra : List (String × JVal)) : List (String × JVal) :=
  base.filter (fun kv => !(extra.any (fun kv2 => kv2.1 = kv.1))) ++ extra

/-! ## SecretHasher: `verify_password` (user_service `app/core/security.py`, lines 41-47)

`verify_password` raises `ValueError("Passwords cannot be empty.")` when either
argument is the empty string and otherwise delegates to passlib's
`CryptContext.verify` on the configured argon2 scheme. -/

/-- Models the behaviour of passlib's `CryptContext.verify` (third-party
dependency, not part of this repository's sources). Per passlib's documented
contract, `verify` raises `ValueError` ("hash could not be identified") when
the hash string is not recognizable as a hash of one of the configured
schemes, and otherwise returns the boolean verification result. The hash
recognizer and the underlying constant-time comparison are abstracted as the
function arguments `identify` and `matches`. -/
def pwd_context_verify (identify : String → Bool) (matchFn : String → String → Bool)
    (secret hashed : String) : Except String Bool :=
  if identify hashed then .ok (matchFn secret hashed)
  else .error "hash could not be identified"

/-- Embeds `verify_password` (user_service `app/core/security.py`, lines
41-47): raise `ValueError` if either argument is empty (Python string
truthiness), else return `pwd_context.verify(plain_password,
hashed_password)`. The passlib context is abstracted as `ctxVerify`. -/
def verify_password (ctxVerify : String → String → Except String Bool)
    (plain_password hashed_password : String) : Except String Bool :=
  if plain_password = "" ∨ hashed_password = "" then
    .error "Passwords cannot be empty."
  else ctxVerify plain_password hashed_password

/-! ## TokenCodec (user_service `app/core/security.py`) -/

/-- Embeds the internal helper `_create_access_token` (user_service
`app/core/security.py`, lines 51-80). `expire_default` stands for
`settings.JWT_ACCESS_TOKEN_EXPIRE_MINUTES`; `now` is the current Unix time in
seconds and `jti` the freshly generated uuid4 string. Python's
`expires_minutes or settings.JWT_ACCESS_TOKEN_EXPIRE_MINUTES` treats `0` as
falsy, hence the explicit zero case. Signing (`jwt.encode`) is abstracted: the
result carries the payload dict that gets signed, the jti, and `expires_in`
in seconds. Raises `ValueError` when the resolved expiry is not positive. -/
def create_access_token_base (expire_default : Int) (now : Int) (jti : String)
    (payload_extra : List (String × JVal)) (expires_minutes : Option Int) :
    Except String (List (String × JVal) × String × Int) :=
  let expire_minutes : Int :=
    match expires_minutes with
    | none => expire_default
    | some m => if m = 0 then expire_default else m
  if expire_minutes ≤ 0 then
    .error "Invalid token expiration time"
  else
    let expire := now + expire_minutes * 60
    let payload := dictUpdate
      [("iat", JVal.int now), ("exp", JVal.int expire), ("jti", JVal.str jti)]
      payload_extra
    .ok (payload, jti, expire - now)

/-- Embeds `create_user_access_token` (user_service `app/core/security.py`,
lines 83-99): payload extras are `sub`, `type = "user"`, `roles` (Python
`roles or []`), and `is_superuser`. -/
def create_user_access_token (expire_default now : Int) (jti : String)
    (subject : String) (roles : Option (List String)) (is_superuser : Bool)
    (expires_minutes : Option Int) :
    Except String (List (String × JVal) × String × Int) :=
  create_access_token_base expire_default now jti
    [("sub", JVal.str subject), ("type", JVal.str "user"),
     ("roles", JVal.arr (roles.getD [])), ("is_superuser", JVal.bool is_superuser)]
    expires_minutes

/-- Embeds `create_client_access_token` (user_service `app/core/security.py`,
lines 102-117): payload extras are `sub`, `type = "client"`, `permissions`
(Python `permissions or []`), and `is_superuser = False` hard-coded. -/
def create_client_access_token (expire_default now : Int) (jti : String)
    (subject : String) (permissions : Option (List String))
    (expires_minutes : Option Int) :
    Except String (List (String × JVal) × String × Int) :=
  create_access_token_base expire_default now jti
    [("sub", JVal.str subject), ("type", JVal.str "client"),
     ("permissions", JVal.arr (permissions.getD [])), ("is_superuser", JVal.bool false)]
    expires_minutes

/-- Modelled from the spec: the top-level tree's `app/core/security.py` is not
under `src/` (only its caller `AuthService.login` in `app/services/auth.py`
and its tests `tests/security/test_jwt_generation_and_validation.py` are).
Its `create_user_access_token(subject, permissions, is_superuser,
require_password_change, expires_minutes)` is modelled from the spec's
AccessTokenClaims: the user-token payload carries `subject_id, type,
issued_at, expires_at, token_id (jti), permissions, is_superuser,
force_password_change`, built on the same `_create_access_token` helper. -/
def create_user_access_token_app (expire_default now : Int) (jti : String)
    (subject : String) (permissions : List String) (is_superuser : Bool)
    (force_password_change : Bool) (expires_minutes : Option Int) :
    Except String (List (String × JVal) × String × Int) :=
  create_access_token_base expire_default now jti
    [("sub", JVal.str subject), ("type", JVal.str "user"),
     ("permissions", JVal.arr permissions), ("is_superuser", JVal.bool is_superuser),
     ("force_password_change", JVal.bool force_password_change)]
    expires_minutes

/-- Embeds the `TokenPayload` pydantic schema of the top-level
`app/schemas/auth.py` (lines 23-31): required `sub, exp, iat, jti`; `type`
defaults to `"user"`; `roles` is `Optional[List[str]]` with default `[]`;
`is_superuser` is `Optional[bool]` with default `False`; `client_id` is
`Optional[str]` with default `None`. The `jti` UUID is kept as its string
form. Note the schema has no `permissions` and no `force_password_change`
field. -/
structure TokenPayload where
  sub : String
  exp : Int
  iat : Int
  jti : String
  type : String
  roles : Option (List String)
  is_superuser : Option Bool
  client_id : Option String
deriving DecidableEq

/-- Pydantic validation of a decoded claims dict into `TokenPayload`
(`TokenPayload(**payload_dict)`). Required fields must be present with the
right shape; optional fields fall back to their declared defaults; extra keys
in the dict are ignored, which is pydantic's default behaviour. -/
def tokenPayload_ofDict (d : List (String × JVal)) : Except String TokenPayload :=
  match dictGet d "sub", dictGet d "exp", dictGet d "iat", dictGet d "jti" with
  | some (JVal.str sub), some (JVal.int exp), some (JVal.int iat), some (JVal.str jti) =>
    let type : Except String String :=
      match dictGet d "type" with
      | none => .ok "user"
      | some (JVal.str t) => .ok t
      | some _ => .error "type must be a string"
    let roles : Except String (Option (List String)) :=
      match dictGet d "roles" with
      | none => .ok (some [])
      | some (JVal.arr l) => .ok (some l)
      | some JVal.null => .ok none
      | some _ => .error "roles must be a list of strings"
    let is_superuser : Except String (Option Bool) :=
      match dictGet d "is_superuser" with
      | none => .ok (some false)
      | some (JVal.bool b) => .ok (some b)
      | some JVal.null => .ok none
      | some _ => .error "is_superuser must be a boolean"
    let client_id : Except String (Option String) :=
      match dictGet d "client_id" with
      | none => .ok none
      | some (JVal.str c) => .ok (some c)
      | some JVal.null => .ok none
      | some _ => .error "client_id must be a string"
    match type, roles, is_superuser, client_id with
    | .ok t, .ok r, .ok su, .ok ci =>
      .ok { sub := sub, exp := exp, iat := iat, jti := jti,
            type := t, roles := r, is_superuser := su, client_id := ci }
    | .error m, _, _, _ => .error m
    | _, .error m, _, _ => .error m
    | _, _, .error m, _ => .error m
    | _, _, _, .error m => .error m
  | _, _, _, _ => .error "missing or invalid required field"

/-- Decode failure taxonomy of `decode_token`: `expired` is jose's
`ExpiredSignatureError`, `claimsError` its `JWTClaimsError`, and
`validationError` a pydantic validation failure. -/
inductive DecodeErr where
  | expired
  | claimsError (msg : String)
  | validationError (msg : String)
deriving DecidableEq

/-- Models the expiry validation that `jose.jwt.decode` performs (third-party
`python-jose` dependency, `jose/jwt.py`, `_validate_exp`): with leeway
`leeway`, the claims are rejected as expired iff `exp < now - leeway`; a
missing `exp` claim skips the check; a non-integer `exp` raises
`JWTClaimsError`. `decode_token` calls it with the default leeway `0`. -/
def jose_validate_exp (claims : List (String × JVal)) (now leeway : Int) :
    Except DecodeErr Unit :=
  match dictGet claims "exp" with
  | none => .ok ()
  | some (JVal.int exp) =>
      if exp < now - leeway then .error .expired else .ok ()
  | some _ => .error (.claimsError "Expiration Time claim (exp) must be an integer.")

/-- Embeds `decode_token` (user_service `app/core/security.py`, lines
120-133): `jwt.decode(token, key, algorithms, options={"verify_exp": True})`
followed by `TokenPayload(**payload_dict)`. Signature verification is
abstracted: the input is the claims dict of a correctly signed token (a bad
signature or structure fails before this model starts). The expiry check is
jose's, with zero leeway; the pydantic schema is the top-level
`TokenPayload`. -/
def decode_token (claims : List (String × JVal)) (now : Int) :
    Except DecodeErr TokenPayload :=
  match jose_validate_exp claims now 0 with
  | .error e => .error e
  | .ok _ =>
    match tokenPayload_ofDict claims with
    | .error m => .error (.validationError m)
    | .ok p => .ok p

/-! ## RefreshTokenStore (top-level `app/repositories/refresh_token.py`)

The durable state is the `refresh_tokens` table; it is modelled as the list of
its rows in insertion order. SQLAlchemy `select ... .first()` becomes
`List.find?` and `update ... where` becomes `List.map` over the rows. -/

/-- Embeds the `RefreshToken` model (top-level `app/models/refresh_token.py`):
jti, user id, hashed secret, expiry, revocation flag, rotation successor,
last-use timestamp and client metadata. The surrogate `id` primary key and
the server-defaulted `issued_at` column play no role in the engine and are
omitted. UUIDs are modelled as `Nat`. -/
structure RefreshTokenRec where
  jti : Nat
  user_id : Nat
  hashed_token : String
  expires_at : Int
  revoked : Bool
  replaced_by : Option Nat
  last_used_at : Option Int
  ip : Option String
  user_agent : Option String
deriving DecidableEq

/-- The refresh-token table: rows in insertion order. -/
abbrev RefreshStore : Type := List RefreshTokenRec

/-- Embeds `RefreshTokenRepository.create_refresh_token` (lines 13-37):
insert a fresh row; `revoked` defaults to false, `replaced_by` and
`last_used_at` to null. -/
def create_refresh_token (s : RefreshStore) (jti user_id : Nat)
    (hashed_token : String) (expires_at : Int)
    (user_agent client_ip : Option String) : RefreshStore :=
  List.append s [{ jti := jti, user_id := user_id, hashed_token := hashed_token,
                   expires_at := expires_at, revoked := false, replaced_by := none,
                   last_used_at := none, ip := client_ip, user_agent := user_agent }]

/-- Embeds `RefreshTokenRepository.get_by_token_hash` (lines 39-44): first row
whose `hashed_token` equals the given hash. -/
def get_by_token_hash (s : RefreshStore) (token_hash : String) : Option RefreshTokenRec :=
  List.find? (fun r => r.hashed_token = token_hash) s

/-- Embeds `RefreshTokenRepository.get_refresh_token_by_jti` (lines 46-51):
first row with the given jti. -/
def get_refresh_token_by_jti (s : RefreshStore) (jti : Nat) : Option RefreshTokenRec :=
  List.find? (fun r => r.jti = jti) s

/-- Embeds `RefreshTokenRepository.revoke_refresh_token` (lines 53-58):
`update ... where jti = jti set revoked = true`. -/
def revoke_refresh_token (s : RefreshStore) (jti : Nat) : RefreshStore :=
  List.map (fun r => if r.jti = jti then { r with revoked := true } else r) s

/-- Embeds `RefreshTokenRepository.mark_refresh_token_replaced` (lines 60-65):
mark the old row revoked and point `replaced_by` at the new jti. -/
def mark_refresh_token_replaced (s : RefreshStore) (old_jti new_jti : Nat) : RefreshStore :=
  List.map (fun r => if r.jti = old_jti then { r with revoked := true, replaced_by := some new_jti } else r) s

/-- Embeds `RefreshTokenRepository.revoke_all_refresh_tokens_for_user` (lines
67-72): revoke every row of the given user. -/
def revoke_all_refresh_tokens_for_user (s : RefreshStore) (user_id : Nat) : RefreshStore :=
  List.map (fun r => if r.user_id = user_id then { r with revoked := true } else r) s

/-- Embeds `RefreshTokenRepository.update_refresh_token_last_used` (lines
74-81): set `last_used_at` on the row with the given jti. -/
def update_refresh_token_last_used (s : RefreshStore) (jti : Nat) (used_at : Int) : RefreshStore :=
  List.map (fun r => if r.jti = jti then { r with last_used_at := some used_at } else r) s

/-! ## SessionLifecycleEngine: rotation
(`AuthService.refresh_with_refresh_token`, top-level `app/services/auth.py`,
lines 116-186) -/

/-- The three `DomainError` raises of `refresh_with_refresh_token`, by branch:
`invalidToken` is `"Invalid refresh token"` (record absent),
`invalidOrExpired` is `"Refresh token invalid or expired"` (revoked or past
expiry), `hashMismatch` is `"Refresh token invalid (hash mismatch)"`. All
three are `DomainError`s, the spec's `Invalid` class. -/
inductive RotateErr where
  | invalidToken
  | invalidOrExpired
  | hashMismatch
deriving DecidableEq

/-- Successful rotation output: the new raw secret and jti handed back to the
client, and the owner for whom the access token is then issued. -/
structure RotateOk where
  new_raw : String
  new_jti : Nat
  user_id : Nat
deriving DecidableEq

/-- The record lookup at the top of `refresh_with_refresh_token` (lines
123-130): prefer lookup by jti when one was presented (UUIDs are always
truthy in Python), else look up by the hash of the presented secret. -/
def lookup_presented (hashRT : String → String) (s : RefreshStore)
    (presented_raw : String) (presented_jti : Option Nat) : Option RefreshTokenRec :=
  match presented_jti with
  | some j => get_refresh_token_by_jti s j
  | none => get_by_token_hash s (hashRT presented_raw)

/-- Embeds `AuthService.refresh_with_refresh_token` (top-level
`app/services/auth.py`, lines 116-186). `hashRT` abstracts
`hash_refresh_token` (HMAC-SHA256 under the deployment secret); `new_raw`
and `new_jti` are the values produced by `generate_raw_refresh_token()` and
`new_expires_at` the value of `refresh_token_expiry_datetime()`. The result
pairs the state of the store after the call with the outcome, because the
security branches mutate the store before raising. The user fetch and access
token creation after a successful rotation (lines 167-179) read only the user
tables and are not part of the refresh-token state; the returned `RotateOk`
records for whom they run. `datetime.now` at the last-used update is the
call's `now`. -/
def refresh_with_refresh_token (hashRT : String → String) (s : RefreshStore)
    (presented_raw : String) (presented_jti : Option Nat) (now : Int)
    (ip user_agent : Option String) (new_raw : String) (new_jti : Nat)
    (new_expires_at : Int) : RefreshStore × Except RotateErr RotateOk :=
  match lookup_presented hashRT s presented_raw presented_jti with
  | none => (s, .error .invalidToken)
  | some token_row =>
    if token_row.revoked = true ∨ token_row.expires_at < now then
      (revoke_all_refresh_tokens_for_user s token_row.user_id, .error .invalidOrExpired)
    else if ¬ hashRT presented_raw = token_row.hashed_token then
      (revoke_all_refresh_tokens_for_user s token_row.user_id, .error .hashMismatch)
    else
      let s1 := create_refresh_token s new_jti token_row.user_id (hashRT new_raw)
        new_expires_at user_agent ip
      let s2 := mark_refresh_token_replaced s1 token_row.jti new_jti
      let s3 := update_refresh_token_last_used s2 new_jti now
      (s3, .ok { new_raw := new_raw, new_jti := new_jti, user_id := token_row.user_id })

/-! ## Live principal records

Only the fields the embedded control flow reads are modelled; presentation
fields (emails, names, timestamps) are omitted. -/

/-- Embeds `PermissionRead` (`app/schemas/permission.py`): a named
permission. -/
structure PermissionRead where
  name : String
deriving DecidableEq

/-- Embeds `RoleRead` (`app/schemas/role.py`): a role with its permission
list. -/
structure RoleRead where
  name : String
  permissions : List PermissionRead
deriving DecidableEq

/-- Embeds the behavioural fields of `UserReadDetailed`
(`app/schemas/user.py`) and of the ORM `User` row the services read:
activity, superuser and forced-password-change flags, the stored password
hash, and the eagerly loaded roles. -/
structure UserRow where
  id : Nat
  hashed_password : String
  is_active : Bool
  is_superuser : Bool
  require_password_change : Bool
  roles : List RoleRead
deriving DecidableEq

/-- Embeds the behavioural fields of `ClientRead` (`app/schemas/client.py`)
and of the ORM `Client` row: the stored secret hash, the activity flag and
the optional permission list (`Optional[List[PermissionRead]]`). -/
structure ClientRow where
  id : Nat
  client_id : Nat
  hashed_secret : String
  is_active : Bool
  permissions : Option (List PermissionRead)
deriving DecidableEq

/-- Embeds `Principal` (top-level `app/schemas/auth.py`, lines 53-59): kind
tag, decoded token, and the optionally hydrated user or client record. -/
structure Principal where
  kind : String
  token : TokenPayload
  user : Option UserRow
  client : Option ClientRow
deriving DecidableEq

/-! ## Login and client-credentials checks
(`AuthService.login` / `AuthService.client_credentials`, top-level
`app/services/auth.py`) -/

/-- Application error raised by the auth service: `unauthorized` embeds
`UnauthorizedError` (HTTP 401, message included in the response body by the
exception handler), and `valueError` an uncaught `ValueError` escaping
`verify_password` (which the generic handler maps to a 500). -/
inductive AuthErr where
  | unauthorized (msg : String)
  | valueError (msg : String)
deriving DecidableEq

/-- Embeds the credential checks of `AuthService.login` (top-level
`app/services/auth.py`, lines 52-63): absent user and failed password
verification raise `UnauthorizedError("Invalid credentials")`; an inactive
user raises `UnauthorizedError` with a distinct disabled-account message.
`user_opt` is the result of `read_by_email`; `ctxVerify` is the passlib
context of `verify_password`. Steps 4-13 (token issuance) run only on
`.ok`. -/
def login_credential_check (ctxVerify : String → String → Except String Bool)
    (user_opt : Option UserRow) (password : String) : Except AuthErr UserRow :=
  match user_opt with
  | none => .error (.unauthorized "Invalid credentials")
  | some user =>
    match verify_password ctxVerify password user.hashed_password with
    | .error m => .error (.valueError m)
    | .ok false => .error (.unauthorized "Invalid credentials")
    | .ok true =>
      if user.is_active = false then
        .error (.unauthorized "User account is disabled, contact with the administrator")
      else .ok user

/-- Embeds the credential checks of `AuthService.client_credentials`
(top-level `app/services/auth.py`, lines 339-352): absent client and secret
mismatch raise `UnauthorizedError("Invalid client credentials")`; an
inactive client raises `UnauthorizedError` with a distinct disabled-account
message. `client_opt` is the result of `read_by_clientid`. -/
def client_credentials_check (ctxVerify : String → String → Except String Bool)
    (client_opt : Option ClientRow) (client_secret : String) : Except AuthErr ClientRow :=
  match client_opt with
  | none => .error (.unauthorized "Invalid client credentials")
  | some client =>
    if client.is_active = false then
      .error (.unauthorized "Client account is disabled, contact with the administrator")
    else
      match verify_password ctxVerify client_secret client.hashed_secret with
      | .error m => .error (.valueError m)
      | .ok false => .error (.unauthorized "Invalid client credentials")
      | .ok true => .ok client

/-- Embeds the permission list computed by `AuthService.client_credentials`
step 4: `[p.name for p in client.permissions] if client.permissions else
[]`. -/
def client_permission_names (client : ClientRow) : List String :=
  match client.permissions with
  | none => []
  | some ps => ps.map (fun p => p.name)

/-! ## PermissionResolver: `requires_permission(...).checker`
(user_service `app/core/permissions.py`, lines 20-75) -/

/-- Outcome of the `checker` dependency: the allowed branches return the user
record, the principal, or `None` (per `return_user`); denial is an
`HTTPException(403, detail)` and a missing or malformed principal an
`HTTPException(401, "Unauthenticated")`. -/
inductive CheckOutcome where
  | allowedUser (u : UserRow)
  | allowedPrincipal (p : Principal)
  | allowedNone
  | forbidden (detail : String)
  | unauthenticated
deriving DecidableEq

/-- Effective permission set of a user: `{perm.name for role in roles for
perm in role.permissions}` (set displayed as the list of names, membership
being all that is consulted). -/
def user_permission_names (u : UserRow) : List String :=
  (u.roles.map (fun role => role.permissions.map (fun p => p.name))).flatten

/-- The client branch of `checker` (lines 57-70): inactive client is
forbidden; otherwise allow iff the required permission is among
`client.permissions or []`. -/
def checker_client_branch (permission_name : String) (return_user : Bool)
    (principal : Principal) (client : ClientRow) : CheckOutcome :=
  if client.is_active = false then .forbidden "Client account is inactive"
  else
    let client_permissions := (client.permissions.getD []).map (fun p => p.name)
    if ¬ permission_name ∈ client_permissions then .forbidden "Access denied"
    else if return_user then .allowedPrincipal principal else .allowedNone

/-- The user branch of `checker` (lines 22-54), in source order: inactive →
403; `require_password_change` → 403; superuser → allow; otherwise allow iff
the required permission is in the role-derived set. -/
def checker_user_branch (permission_name : String) (return_user : Bool)
    (current_user : UserRow) : CheckOutcome :=
  if current_user.is_active = false then .forbidden "User account is inactive"
  else if current_user.require_password_change then
    .forbidden "User must change password before proceeding"
  else if current_user.is_superuser then
    (if return_user then .allowedUser current_user else .allowedNone)
  else
    let user_permissions := user_permission_names current_user
    if ¬ permission_name ∈ user_permissions then .forbidden "Access denied"
    else if return_user then .allowedUser current_user else .allowedNone

/-- Embeds `requires_permission(permission_name, return_user).checker`
(user_service `app/core/permissions.py`, lines 20-73): dispatch on
`principal.kind == "user" and principal.user`, then `principal.kind ==
"client" and principal.client`, falling through to 401 Unauthenticated. -/
def requires_permission_checker (permission_name : String) (return_user : Bool)
    (principal : Principal) : CheckOutcome :=
  if h : principal.kind = "user" ∧ principal.user.isSome then
    checker_user_branch permission_name return_user (principal.user.get h.2)
  else if h2 : principal.kind = "client" ∧ principal.client.isSome then
    checker_client_branch permission_name return_user principal (principal.client.get h2.2)
  else .unauthenticated

/-! ## PrincipalResolver: `get_current_principal`
(top-level `app/dependencies/auth.py`, lines 42-91) -/

/-- Character-list prefix test, auxiliary to substring search. -/
def leadsChars : List Char → List Char → Bool
  | [], _ => true
  | _ :: _, [] => false
  | p :: ps, h :: hs => p = h && leadsChars ps hs

/-- Substring search on character lists, auxiliary to the `"expired" in
msg.lower()` test. -/
def containsChars (hay pat : List Char) : Bool :=
  match hay with
  | [] => leadsChars pat []
  | _ :: hs => leadsChars pat hay || containsChars hs pat

/-- The `"expired" in msg.lower()` test of `get_current_principal` step 0. -/
def msg_mentions_expired (msg : String) : Bool :=
  containsChars (msg.data.map Char.toLower) "expired".data

/-- Failure of `get_current_principal`: every raise in the function is an
`HTTPException(status.HTTP_401_UNAUTHORIZED, detail)`; the try/except blocks
around decoding and around the UUID parse plus repository reads convert any
exception on those steps into this same 401, so no server-side error can
escape the function. -/
inductive ResolveErr where
  | unauthorized (detail : String)
deriving DecidableEq

/-- Embeds `get_current_principal` (top-level `app/dependencies/auth.py`,
lines 42-91). `decoded` is the outcome of `decode_token(token)` (error =
the raised exception's message); `uuidParse` abstracts Python's `UUID(sub)`
constructor (`none` = raises `ValueError`); `get_user_for_auth` and
`get_client_for_auth` abstract `AuthRepository` reads, whose Python
contract returns the record, `None` when absent (`scalar_one_or_none`), or
raises `RepositoryError` on database failure (the `.error` case). -/
def get_current_principal (uuidParse : String → Option Nat)
    (get_user_for_auth : Nat → Except String (Option UserRow))
    (get_client_for_auth : Nat → Except String (Option ClientRow))
    (decoded : Except String TokenPayload) : Except ResolveErr Principal :=
  match decoded with
  | .error exc =>
    let msg := if exc = "" then "Invalid token" else exc
    if msg_mentions_expired msg then .error (.unauthorized "Token expired")
    else .error (.unauthorized msg)
  | .ok payload =>
    let token_type := payload.type
    if token_type = "" then .error (.unauthorized "Malformed token")
    else if payload.sub = "" then .error (.unauthorized "Malformed token")
    else if token_type = "user" then
      match uuidParse payload.sub with
      | none => .error (.unauthorized "User not found or inactive")
      | some uid =>
        match get_user_for_auth uid with
        | .error _ => .error (.unauthorized "User not found or inactive")
        | .ok u => .ok { kind := "user", token := payload, user := u, client := none }
    else if token_type = "client" then
      match uuidParse payload.sub with
      | none => .error (.unauthorized "Client not found or inactive")
      | some cid =>
        match get_client_for_auth cid with
        | .error _ => .error (.unauthorized "Client not found or inactive")
        | .ok c => .ok { kind := "client", token := payload, user := none, client := c }
    else .error (.unauthorized "Unknown token type")

/-! ## Helper lemmas about the store operations -/

/-- Generic transport of `List.find?` through `List.map` when the mapped
function does not change the tested field. -/
theorem find?_map_comm {α : Type} (s : List α) (f : α → α) (p q : α → Bool)
    (h : ∀ x, p (f x) = q x) : (s.map f).find? p = (s.find? q).map f := by
  have hpq : p ∘ f = q := funext h
  rw [List.find?_map, hpq]

/-- Every row of the given owner is revoked after
`revoke_all_refresh_tokens_for_user`. -/
theorem revoke_all_marks_owner (s : RefreshStore) (uid : Nat) :
    ∀ rec ∈ revoke_all_refresh_tokens_for_user s uid,
      rec.user_id = uid → rec.revoked = true := by
  intro rec hmem huid
  rcases List.mem_map.1 hmem with ⟨y, _, rfl⟩
  by_cases hy : y.user_id = uid
  · simp [hy]
  · rw [if_neg hy] at huid
    exact absurd huid hy

/-- Jti lookup through `mark_refresh_token_replaced`. -/
theorem get_by_jti_mark_replaced (s : RefreshStore) (old_jti new_jti j : Nat) :
    get_refresh_token_by_jti (mark_refresh_token_replaced s old_jti new_jti) j
      = (get_refresh_token_by_jti s j).map
          (fun r => if r.jti = old_jti then { r with revoked := true, replaced_by := some new_jti } else r) := by
  apply find?_map_comm
  intro x
  by_cases hx : x.jti = old_jti <;> simp [hx]

/-- Jti lookup through `update_refresh_token_last_used`. -/
theorem get_by_jti_update_last_used (s : RefreshStore) (jti j : Nat) (t : Int) :
    get_refresh_token_by_jti (update_refresh_token_last_used s jti t) j
      = (get_refresh_token_by_jti s j).map
          (fun r => if r.jti = jti then { r with last_used_at := some t } else r) := by
  apply find?_map_comm
  intro x
  by_cases hx : x.jti = jti <;> simp [hx]

/-- Hash lookup through `mark_refresh_token_replaced`. -/
theorem get_by_hash_mark_replaced (s : RefreshStore) (old_jti new_jti : Nat) (h : String) :
    get_by_token_hash (mark_refresh_token_replaced s old_jti new_jti) h
      = (get_by_token_hash s h).map
          (fun r => if r.jti = old_jti then { r with revoked := true, replaced_by := some new_jti } else r) := by
  apply find?_map_comm
  intro x
  by_cases hx : x.jti = old_jti <;> simp [hx]

/-- Hash lookup through `update_refresh_token_last_used`. -/
theorem get_by_hash_update_last_used (s : RefreshStore) (jti : Nat) (t : Int) (h : String) :
    get_by_token_hash (update_refresh_token_last_used s jti t) h
      = (get_by_token_hash s h).map
          (fun r => if r.jti = jti then { r with last_used_at := some t } else r) := by
  apply find?_map_comm
  intro x
  by_cases hx : x.jti = jti <;> simp [hx]

/-- C2: Rotation on an absent record fails with `Invalid` ("Invalid refresh
token") leaving the store untouched; on a record that is revoked or past its
expiry it returns the store with every refresh token of that record's owner
revoked and fails with `Invalid` ("Refresh token invalid or expired"). -/
theorem rotate_absent_noop_and_dead_token_revokes_all
    (hashRT : String → String) (s : RefreshStore) (presented_raw : String)
    (presented_jti : Option Nat) (now : Int) (ip ua : Option String)
    (new_raw : String) (new_jti : Nat) (new_exp : Int) :
    (lookup_presented hashRT s presented_raw presented_jti = none →
      refresh_with_refresh_token hashRT s presented_raw presented_jti now ip ua new_raw new_jti new_exp
        = (s, .error .invalidToken))
    ∧ (∀ row, lookup_presented hashRT s presented_raw presented_jti = some row →
        row.revoked = true ∨ row.expires_at < now →
        refresh_with_refresh_token hashRT s presented_raw presented_jti now ip ua new_raw new_jti new_exp
          = (revoke_all_refresh_tokens_for_user s row.user_id, .error .invalidOrExpired)
        ∧ ∀ rec ∈ revoke_all_refresh_tokens_for_user s row.user_id,
            rec.user_id = row.user_id → rec.revoked = true) := by
  constructor
  · intro hnone
    unfold refresh_with_refresh_token
    rw [hnone]
  · intro row hsome hdead
    refine ⟨?_, revoke_all_marks_owner s row.user_id⟩
    unfold refresh_with_refresh_token
    rw [hsome]
    simp [hdead]

/-- C2 witness: concrete instances of both branches — the empty store yields
`Invalid` unchanged, and a revoked single-row store is fully revoked for its
owner. -/
theorem rotate_absent_noop_and_dead_token_revokes_all_witness :
    (refresh_with_refresh_token (fun x => x ++ "#") [] "a" none 0 none none "b" 2 100
      = ([], .error .invalidToken))
    ∧ (refresh_with_refresh_token (fun x => x ++ "#")
        [{ jti := 1, user_id := 7, hashed_token := "a#", expires_at := 100, revoked := true,
           replaced_by := none, last_used_at := none, ip := none, user_agent := none }]
        "a" (some 1) 0 none none "b" 2 100
      = ([{ jti := 1, user_id := 7, hashed_token := "a#", expires_at := 100, revoked := true,
            replaced_by := none, last_used_at := none, ip := none, user_agent := none }],
         .error .invalidOrExpired)) := by
  constructor
  · exact (rotate_absent_noop_and_dead_token_revokes_all (fun x => x ++ "#") [] "a" none 0
      none none "b" 2 100).1 (by decide)
  · exact ((rotate_absent_noop_and_dead_token_revokes_all (fun x => x ++ "#")
      [{ jti := 1, user_id := 7, hashed_token := "a#", expires_at := 100, revoked := true,
         replaced_by := none, last_used_at := none, ip := none, user_agent := none }]
      "a" (some 1) 0 none none "b" 2 100).2
      { jti := 1, user_id := 7, hashed_token := "a#", expires_at := 100, revoked := true,
        replaced_by := none, last_used_at := none, ip := none, user_agent := none }
      (by decide) (Or.inl (by decide))).1

/-- C8: When no jti is presented, the record is looked up by the hash of the
presented secret, so any record found has `hashed_token` equal to
`hash_refresh_token(presented_raw)`, and the hash-mismatch security branch
can never fire on that path. -/
theorem rotate_without_jti_never_hash_mismatch
    (hashRT : String → String) (s : RefreshStore) (presented_raw : String)
    (now : Int) (ip ua : Option String) (new_raw : String) (new_jti : Nat)
    (new_exp : Int) :
    (∀ row, get_by_token_hash s (hashRT presented_raw) = some row →
       row.hashed_token = hashRT presented_raw)
    ∧ (refresh_with_refresh_token hashRT s presented_raw none now ip ua new_raw new_jti new_exp).2
        ≠ .error .hashMismatch := by
  have hfound : ∀ row, get_by_token_hash s (hashRT presented_raw) = some row →
      row.hashed_token = hashRT presented_raw := by
    intro row hrow
    have := List.find?_some hrow
    simpa using this
  refine ⟨hfound, ?_⟩
  unfold refresh_with_refresh_token lookup_presented
  cases hlk : get_by_token_hash s (hashRT presented_raw) with
  | none => simp
  | some row =>
    have hh : row.hashed_token = hashRT presented_raw := hfound row hlk
    by_cases hdead : row.revoked = true ∨ row.expires_at < now
    · simp [hdead]
    · simp [hdead, hh]

/-- C8 witness: on a concrete one-row store, the hash-lookup result matches
the presented hash and no hash-mismatch error arises. -/
theorem rotate_without_jti_never_hash_mismatch_witness :
    ({ jti := 1, user_id := 7, hashed_token := "a#", expires_at := 100, revoked := false,
       replaced_by := none, last_used_at := none, ip := none,
       user_agent := none : RefreshTokenRec }.hashed_token = "a#")
    ∧ (refresh_with_refresh_token (fun x => x ++ "#")
        [{ jti := 1, user_id := 7, hashed_token := "a#", expires_at := 100, revoked := false,
           replaced_by := none, last_used_at := none, ip := none, user_agent := none }]
        "a" none 0 none none "b" 2 200).2 ≠ .error .hashMismatch := by
  refine ⟨?_, (rotate_without_jti_never_hash_mismatch (fun x => x ++ "#") _ "a" 0
    none none "b" 2 200).2⟩
  exact (rotate_without_jti_never_hash_mismatch (fun x => x ++ "#")
    [{ jti := 1, user_id := 7, hashed_token := "a#", expires_at := 100, revoked := false,
       replaced_by := none, last_used_at := none, ip := none, user_agent := none }]
    "a" 0 none none "b" 2 200).1 _ (by decide)

/-- C5 (amended): with jose's validation, decoding a well-formed, correctly
signed token succeeds whenever `now ≤ expires_at` — in particular at
`now = expires_at - 1` and still at `now = expires_at` — and fails with
`Expired` iff `now > expires_at`: the validity window is closed at
`expires_at`, not half-open. -/
theorem decode_token_expiry_boundary
    (claims : List (String × JVal)) (now exp : Int) (tp : TokenPayload)
    (hexp : dictGet claims "exp" = some (JVal.int exp))
    (hok : tokenPayload_ofDict claims = .ok tp) :
    (now ≤ exp → decode_token claims now = .ok tp)
    ∧ (decode_token claims now = .error .expired ↔ exp < now) := by
  unfold decode_token jose_validate_exp
  rw [hexp]
  constructor
  · intro hle
    have hc : ¬ exp < now := by omega
    simp [hc, hok]
  · constructor
    · intro hd
      by_contra hlt
      have hc : ¬ exp < now := by omega
      simp [hc, hok] at hd
    · intro hlt
      simp [hlt]

/-- C5 witness: at `now = expires_at - 1` the concrete token decodes
successfully and is not reported expired. -/
theorem decode_token_expiry_boundary_witness :
    (decode_token
        [("sub", JVal.str "u"), ("exp", JVal.int 100), ("iat", JVal.int 0),
         ("jti", JVal.str "J"), ("type", JVal.str "user"), ("is_superuser", JVal.bool false)] 99
      = .ok { sub := "u", exp := 100, iat := 0, jti := "J", type := "user",
              roles := some [], is_superuser := some false, client_id := none })
    ∧ (decode_token
        [("sub", JVal.str "u"), ("exp", JVal.int 100), ("iat", JVal.int 0),
         ("jti", JVal.str "J"), ("type", JVal.str "user"), ("is_superuser", JVal.bool false)] 99
      = .error .expired ↔ (100 : Int) < 99) := by
  have h := decode_token_expiry_boundary
    [("sub", JVal.str "u"), ("exp", JVal.int 100), ("iat", JVal.int 0),
     ("jti", JVal.str "J"), ("type", JVal.str "user"), ("is_superuser", JVal.bool false)]
    99 100
    { sub := "u", exp := 100, iat := 0, jti := "J", type := "user",
      roles := some [], is_superuser := some false, client_id := none }
    (by decide) (by decide)
  exact ⟨h.1 (by norm_num), h.2⟩

/-- C5 counterexample: the claim asserts `Decode` fails with `Expired` at
`now == expires_at`; on this concrete token with `expires_at = 100`,
decoding at `now = 100` succeeds (jose rejects only when `exp < now`), so
the claim as stated is false. -/
theorem decode_token_succeeds_at_expiry_cex :
    (decode_token
        [("sub", JVal.str "u"), ("exp", JVal.int 100), ("iat", JVal.int 0),
         ("jti", JVal.str "J"), ("type", JVal.str "user"), ("is_superuser", JVal.bool false)] 100
      = .ok { sub := "u", exp := 100, iat := 0, jti := "J", type := "user",
              roles := some [], is_superuser := some false, client_id := none })
    ∧ decode_token
        [("sub", JVal.str "u"), ("exp", JVal.int 100), ("iat", JVal.int 0),
         ("jti", JVal.str "J"), ("type", JVal.str "user"), ("is_superuser", JVal.bool false)] 100
      ≠ .error DecodeErr.expired
    ∧ decode_token
        [("sub", JVal.str "u"), ("exp", JVal.int 100), ("iat", JVal.int 0),
         ("jti", JVal.str "J"), ("type", JVal.str "user"), ("is_superuser", JVal.bool false)] 101
      = .error DecodeErr.expired := by
  refine ⟨by decide, by decide, by decide⟩

/-- C7 (amended): `verify_password` raises `ValueError` when either argument
is empty, and for a non-empty secret against a stored hash that the passlib
context recognizes it never throws, returning exactly the underlying match
result (true on match, false on mismatch). For a non-empty but unrecognizable
hash string, passlib itself raises, so the unrestricted no-throw claim fails
(see the counterexample). -/
theorem verify_password_empty_and_recognized_contract
    (identify : String → Bool) (matchFn : String → String → Bool)
    (plain hashed : String) :
    ((plain = "" ∨ hashed = "") →
      verify_password (pwd_context_verify identify matchFn) plain hashed
        = .error "Passwords cannot be empty.")
    ∧ (plain ≠ "" → hashed ≠ "" → identify hashed = true →
      verify_password (pwd_context_verify identify matchFn) plain hashed
        = .ok (matchFn plain hashed)) := by
  constructor
  · intro h
    unfold verify_password
    rw [if_pos h]
  · intro h1 h2 hid
    unfold verify_password
    rw [if_neg (by tauto)]
    unfold pwd_context_verify
    simp [hid]

/-- C7 witness: the empty-argument branch errors and the recognized-hash
branch returns the match result on concrete inputs. -/
theorem verify_password_empty_and_recognized_contract_witness :
    (verify_password (pwd_context_verify (fun h => h = "H") (fun _ _ => true)) "" "H"
      = .error "Passwords cannot be empty.")
    ∧ (verify_password (pwd_context_verify (fun h => h = "H") (fun _ _ => true)) "pw" "H"
      = .ok true) := by
  constructor
  · exact (verify_password_empty_and_recognized_contract (fun h => h = "H")
      (fun _ _ => true) "" "H").1 (Or.inl rfl)
  · exact (verify_password_empty_and_recognized_contract (fun h => h = "H")
      (fun _ _ => true) "pw" "H").2 (by decide) (by decide) (by decide)

/-- C7 counterexample: the claim asserts `Verify` never throws for any
non-empty pair; with the passlib context configured for argon2 (recognizing
only argon2-format hashes here), verifying a non-empty secret against the
non-empty but unrecognizable stored string "nothash" raises instead of
returning false, so the claim as stated is false. -/
theorem verify_password_nonempty_can_throw_cex :
    verify_password (pwd_context_verify (fun h => h = "$argon2id$v=19$ok") (fun _ _ => false))
        "secret" "nothash"
      = .error "hash could not be identified"
    ∧ "secret" ≠ "" ∧ "nothash" ≠ "" := by
  refine ⟨by decide, by decide, by decide⟩

/-- C6 (amended): login returns the identical
`UnauthorizedError("Invalid credentials")` for a non-existent identifier and
for an existing identifier with a failing (non-throwing) password check; the
client-credentials flow returns the identical
`UnauthorizedError("Invalid client credentials")` for an absent client and
for an active client with a mismatching secret; an inactive client, however,
is reported with a distinct disabled-account message. -/
theorem auth_unauthorized_uniformity
    (ctxVerify : String → String → Except String Bool)
    (u : UserRow) (c : ClientRow) (password secret : String) :
    (verify_password ctxVerify password u.hashed_password = .ok false →
      login_credential_check ctxVerify (some u) password
        = login_credential_check ctxVerify none password
      ∧ login_credential_check ctxVerify none password
        = .error (.unauthorized "Invalid credentials"))
    ∧ (c.is_active = true →
      verify_password ctxVerify secret c.hashed_secret = .ok false →
      client_credentials_check ctxVerify (some c) secret
        = client_credentials_check ctxVerify none secret
      ∧ client_credentials_check ctxVerify none secret
        = .error (.unauthorized "Invalid client credentials"))
    ∧ (c.is_active = false →
      client_credentials_check ctxVerify (some c) secret
        = .error (.unauthorized "Client account is disabled, contact with the administrator")) := by
  refine ⟨?_, ?_, ?_⟩
  · intro hver
    exact ⟨by simp [login_credential_check, hver], by simp [login_credential_check]⟩
  · intro hact hver
    exact ⟨by simp [client_credentials_check, hact, hver],
           by simp [client_credentials_check]⟩
  · intro hact
    simp [client_credentials_check, hact]

/-- C6 witness: concrete user and active client for which the failing checks
coincide with the absent-record failures. -/
theorem auth_unauthorized_uniformity_witness :
    (login_credential_check (fun _ _ => .ok false)
        (some { id := 1, hashed_password := "H", is_active := true, is_superuser := false,
                require_password_change := false, roles := [] }) "pw"
      = .error (.unauthorized "Invalid credentials"))
    ∧ (client_credentials_check (fun _ _ => .ok false)
        (some { id := 1, client_id := 2, hashed_secret := "S", is_active := true,
                permissions := none }) "cs"
      = .error (.unauthorized "Invalid client credentials")) := by
  have h := auth_unauthorized_uniformity (fun _ _ => .ok false)
    { id := 1, hashed_password := "H", is_active := true, is_superuser := false,
      require_password_change := false, roles := [] }
    { id := 1, client_id := 2, hashed_secret := "S", is_active := true, permissions := none }
    "pw" "cs"
  constructor
  · exact ((h.1 (by decide)).1).trans ((h.1 (by decide)).2)
  · exact ((h.2.1 (by decide) (by decide)).1).trans ((h.2.1 (by decide) (by decide)).2)

/-- C6 counterexample: the claim asserts the client-credentials failure is
identical whether the client is absent, inactive, or the secret mismatches;
for this concrete inactive client the raised `UnauthorizedError` carries the
disabled-account message, which differs from the "Invalid client
credentials" raised for an absent client, so the claim as stated is false. -/
theorem client_inactive_error_differs_cex :
    (client_credentials_check (fun _ _ => .ok false)
        (some { id := 1, client_id := 2, hashed_secret := "S", is_active := false,
                permissions := none }) "cs"
      = .error (.unauthorized "Client account is disabled, contact with the administrator"))
    ∧ (client_credentials_check (fun _ _ => .ok false) none "cs"
      = .error (.unauthorized "Invalid client credentials"))
    ∧ client_credentials_check (fun _ _ => .ok false)
        (some { id := 1, client_id := 2, hashed_secret := "S", is_active := false,
                permissions := none }) "cs"
      ≠ client_credentials_check (fun _ _ => .ok false) none "cs" := by
  refine ⟨by decide, by decide, by decide⟩

/-- C3 (amended): for an active user principal without a pending forced
password change, superuser status makes the permission checker allow every
required permission, even when the role-derived permission set is empty;
inactivity and forced password change, checked first, override the
bypass. -/
theorem superuser_allowed_when_active
    (permission_name : String) (return_user : Bool) (p : Principal) (u : UserRow)
    (hk : p.kind = "user") (hu : p.user = some u) (ha : u.is_active = true)
    (hf : u.require_password_change = false) (hs : u.is_superuser = true) :
    requires_permission_checker permission_name return_user p
      = (if return_user then .allowedUser u else .allowedNone) := by
  have hsome : p.user.isSome := by rw [hu]; rfl
  unfold requires_permission_checker
  rw [dif_pos ⟨hk, hsome⟩]
  have hget : p.user.get hsome = u := by simp [hu]
  unfold checker_user_branch
  simp only [hget, ha, hf, hs]
  simp

/-- C3 witness: a concrete active superuser with no roles is allowed for an
arbitrary permission. -/
theorem superuser_allowed_when_active_witness :
    requires_permission_checker "users:delete" true
      { kind := "user",
        token := { sub := "1", exp := 100, iat := 0, jti := "J", type := "user",
                   roles := some [], is_superuser := some true, client_id := none },
        user := some { id := 1, hashed_password := "H", is_active := true,
                       is_superuser := true, require_password_change := false, roles := [] },
        client := none }
      = .allowedUser { id := 1, hashed_password := "H", is_active := true,
                       is_superuser := true, require_password_change := false, roles := [] } := by
  exact superuser_allowed_when_active "users:delete" true _
    { id := 1, hashed_password := "H", is_active := true, is_superuser := true,
      require_password_change := false, roles := [] }
    rfl rfl rfl rfl rfl

/-- C3 counterexample: the claim asserts the check allows unconditionally for
every user principal with `is_superuser = true`; this concrete inactive
superuser is denied with 403 "User account is inactive" (the activity check
runs before the superuser bypass), so the claim as stated is false. -/
theorem superuser_inactive_denied_cex :
    requires_permission_checker "users:read" true
      { kind := "user",
        token := { sub := "1", exp := 100, iat := 0, jti := "J", type := "user",
                   roles := some [], is_superuser := some true, client_id := none },
        user := some { id := 1, hashed_password := "H", is_active := false,
                       is_superuser := true, require_password_change := false, roles := [] },
        client := none }
      = .forbidden "User account is inactive" := by decide

/-- Destructuring of a successful `create_access_token_base` call: the
payload is the base claims updated with the extras, the returned jti is the
generated one, and the `exp` claim is `iat` plus `expires_in`. -/
theorem create_access_token_base_ok
    (d now : Int) (jti : String) (extra : List (String × JVal)) (em : Option Int)
    (payload : List (String × JVal)) (jti2 : String) (ei : Int)
    (h : create_access_token_base d now jti extra em = .ok (payload, jti2, ei)) :
    ∃ expv : Int,
      payload = dictUpdate
        [("iat", JVal.int now), ("exp", JVal.int expv), ("jti", JVal.str jti)] extra
      ∧ jti2 = jti ∧ expv = now + ei := by
  unfold create_access_token_base at h
  dsimp only at h
  have key : ∀ EM : Int,
      (if EM ≤ 0 then (Except.error "Invalid token expiration time" :
          Except String (List (String × JVal) × String × Int))
        else .ok (dictUpdate
            [("iat", JVal.int now), ("exp", JVal.int (now + EM * 60)), ("jti", JVal.str jti)]
            extra, jti, now + EM * 60 - now)) = .ok (payload, jti2, ei) →
      ∃ expv : Int,
        payload = dictUpdate
          [("iat", JVal.int now), ("exp", JVal.int expv), ("jti", JVal.str jti)] extra
        ∧ jti2 = jti ∧ expv = now + ei := by
    intro EM hEM
    split at hEM
    · exact absurd hEM (by simp)
    · have h' := Except.ok.inj hEM
      have hp := congrArg Prod.fst h'
      have hj := congrArg (fun x => x.2.1) h'
      have he := congrArg (fun x => x.2.2) h'
      simp only at hp hj he
      exact ⟨now + EM * 60, hp.symm, hj.symm, by omega⟩
  exact key _ h

/-- C9: every access token issued by the client-credentials path carries
`is_superuser = false` in its signed payload, for all subjects, permission
lists and expiry configurations; no machine client can obtain a token
granting the superuser bypass. -/
theorem client_access_token_never_superuser
    (expire_default now : Int) (jti subject : String)
    (permissions : Option (List String)) (expires_minutes : Option Int)
    (payload : List (String × JVal)) (jti2 : String) (expires_in : Int)
    (h : create_client_access_token expire_default now jti subject permissions expires_minutes
          = .ok (payload, jti2, expires_in)) :
    dictGet payload "is_superuser" = some (JVal.bool false) := by
  unfold create_client_access_token at h
  obtain ⟨expv, hpl, -, -⟩ := create_access_token_base_ok _ _ _ _ _ _ _ _ h
  rw [hpl]
  simp [dictGet, dictUpdate, List.find?]

/-- C9 witness: the concrete client token payload carries
`is_superuser = false`. -/
theorem client_access_token_never_superuser_witness :
    dictGet
        [("iat", JVal.int 1000), ("exp", JVal.int 1900), ("jti", JVal.str "J"),
         ("sub", JVal.str "c"), ("type", JVal.str "client"),
         ("permissions", JVal.arr ["x"]), ("is_superuser", JVal.bool false)]
        "is_superuser"
      = some (JVal.bool false) := by
  exact client_access_token_never_superuser 15 1000 "J" "c" (some ["x"]) none
    [("iat", JVal.int 1000), ("exp", JVal.int 1900), ("jti", JVal.str "J"),
     ("sub", JVal.str "c"), ("type", JVal.str "client"),
     ("permissions", JVal.arr ["x"]), ("is_superuser", JVal.bool false)]
    "J" 900 (by decide)

/-- C4 (amended): every user access token issued by the top-level service
carries the payload `{sub, type = "user", iat, exp, jti, permissions,
is_superuser, force_password_change}`, but decoding validates the payload
into `TokenPayload`, which has no `permissions` or `force_password_change`
field: those claims are silently discarded and the decoded `roles` falls
back to its default `[]`, so Decode does not yield the permissions or the
forced-password-change flag. -/
theorem user_access_token_claims_and_decode
    (expire_default now : Int) (jti subject : String) (permissions : List String)
    (is_superuser force_password_change : Bool) (expires_minutes : Option Int)
    (payload : List (String × JVal)) (jti2 : String) (expires_in : Int)
    (h : create_user_access_token_app expire_default now jti subject permissions
          is_superuser force_password_change expires_minutes
          = .ok (payload, jti2, expires_in)) :
    dictGet payload "sub" = some (JVal.str subject)
    ∧ dictGet payload "type" = some (JVal.str "user")
    ∧ dictGet payload "iat" = some (JVal.int now)
    ∧ dictGet payload "jti" = some (JVal.str jti)
    ∧ dictGet payload "permissions" = some (JVal.arr permissions)
    ∧ dictGet payload "is_superuser" = some (JVal.bool is_superuser)
    ∧ dictGet payload "force_password_change" = some (JVal.bool force_password_change)
    ∧ dictGet payload "exp" = some (JVal.int (now + expires_in))
    ∧ tokenPayload_ofDict payload
        = .ok { sub := subject, exp := now + expires_in, iat := now, jti := jti,
                type := "user", roles := some [], is_superuser := some is_superuser,
                client_id := none } := by
  unfold create_user_access_token_app at h
  obtain ⟨expv, hpl, -, hexp⟩ := create_access_token_base_ok _ _ _ _ _ _ _ _ h
  rw [hpl, ← hexp]
  refine ⟨?_, ?_, ?_, ?_, ?_, ?_, ?_, ?_, ?_⟩ <;>
    simp [dictGet, dictUpdate, List.find?, tokenPayload_ofDict]

/-- C4 witness: the concrete user token carries all eight claims and decodes
to the expected `TokenPayload` with empty roles. -/
theorem user_access_token_claims_and_decode_witness :
    dictGet
        [("iat", JVal.int 1000), ("exp", JVal.int 1900), ("jti", JVal.str "J"),
         ("sub", JVal.str "u"), ("type", JVal.str "user"),
         ("permissions", JVal.arr ["perm:a"]), ("is_superuser", JVal.bool false),
         ("force_password_change", JVal.bool true)]
        "permissions"
      = some (JVal.arr ["perm:a"])
    ∧ tokenPayload_ofDict
        [("iat", JVal.int 1000), ("exp", JVal.int 1900), ("jti", JVal.str "J"),
         ("sub", JVal.str "u"), ("type", JVal.str "user"),
         ("permissions", JVal.arr ["perm:a"]), ("is_superuser", JVal.bool false),
         ("force_password_change", JVal.bool true)]
      = .ok { sub := "u", exp := 1900, iat := 1000, jti := "J", type := "user",
              roles := some [], is_superuser := some false, client_id := none } := by
  have h := user_access_token_claims_and_decode 15 1000 "J" "u" ["perm:a"] false true none
    [("iat", JVal.int 1000), ("exp", JVal.int 1900), ("jti", JVal.str "J"),
     ("sub", JVal.str "u"), ("type", JVal.str "user"),
     ("permissions", JVal.arr ["perm:a"]), ("is_superuser", JVal.bool false),
     ("force_password_change", JVal.bool true)]
    "J" 900 (by decide)
  exact ⟨h.2.2.2.2.1, h.2.2.2.2.2.2.2.2⟩

/-- C4 counterexample: the claim asserts Decode yields the token's
permissions and force_password_change; these two concrete tokens differ in
both claims (and in nothing else), yet they decode to the identical
`TokenPayload`, so Decode cannot be yielding those fields and the claim as
stated is false. -/
theorem user_token_decode_drops_claims_cex :
    Except.map (fun t => tokenPayload_ofDict t.1)
        (create_user_access_token_app 15 1000 "J" "u" ["perm:a"] false true none)
      = Except.map (fun t => tokenPayload_ofDict t.1)
        (create_user_access_token_app 15 1000 "J" "u" [] false false none)
    ∧ Except.map (fun t => t.1)
        (create_user_access_token_app 15 1000 "J" "u" ["perm:a"] false true none)
      ≠ Except.map (fun t => t.1)
        (create_user_access_token_app 15 1000 "J" "u" [] false false none) := by
  refine ⟨by decide, by decide⟩

/-- C10: for a structurally valid, correctly signed, unexpired user token
whose subject is not a well-formed UUID, `get_current_principal` fails with
the 401 `HTTPException` detail "User not found or inactive" — the identical
failure produced when the user-record lookup raises — and with no other
outcome: the try/except around `UUID(sub)` and the repository read converts
the `ValueError` into this 401 rather than a server-side error. -/
theorem resolver_bad_uuid_sub_unauthorized
    (uuidParse : String → Option Nat)
    (gu : Nat → Except String (Option UserRow))
    (gc : Nat → Except String (Option ClientRow))
    (payload : TokenPayload)
    (h1 : payload.type = "user") (h2 : payload.sub ≠ "")
    (h3 : uuidParse payload.sub = none) :
    get_current_principal uuidParse gu gc (.ok payload)
      = .error (.unauthorized "User not found or inactive")
    ∧ (∀ (payload2 : TokenPayload) (uid : Nat) (msg : String),
        payload2.type = "user" → payload2.sub ≠ "" →
        uuidParse payload2.sub = some uid → gu uid = .error msg →
        get_current_principal uuidParse gu gc (.ok payload2)
          = .error (.unauthorized "User not found or inactive")) := by
  constructor
  · simp [get_current_principal, h1, h2, h3]
  · intro payload2 uid msg hk2 hs2 hup hgu
    simp [get_current_principal, hk2, hs2, hup, hgu]

/-- C10 witness: a concrete well-formed user payload with a non-UUID subject
resolves to the 401 "User not found or inactive" failure. -/
theorem resolver_bad_uuid_sub_unauthorized_witness :
    get_current_principal (fun _ => none) (fun _ => .ok none) (fun _ => .ok none)
        (.ok { sub := "not-a-uuid", exp := 100, iat := 0, jti := "J", type := "user",
               roles := some [], is_superuser := some false, client_id := none })
      = .error (.unauthorized "User not found or inactive") := by
  exact (resolver_bad_uuid_sub_unauthorized (fun _ => none) (fun _ => .ok none)
    (fun _ => .ok none)
    { sub := "not-a-uuid", exp := 100, iat := 0, jti := "J", type := "user",
      roles := some [], is_superuser := some false, client_id := none }
    rfl (by decide) rfl).1

/-- Unfolding of `create_refresh_token` as a list append. -/
theorem create_refresh_token_eq_append (s : RefreshStore) (jti user_id : Nat)
    (hashed_token : String) (expires_at : Int) (user_agent client_ip : Option String) :
    create_refresh_token s jti user_id hashed_token expires_at user_agent client_ip
      = s ++ [{ jti := jti, user_id := user_id, hashed_token := hashed_token,
                expires_at := expires_at, revoked := false, replaced_by := none,
                last_used_at := none, ip := client_ip, user_agent := user_agent }] := rfl

/-- A jti lookup that succeeds on a store still succeeds, with the same row,
after rows are appended. -/
theorem get_by_jti_append_of_found (s t : RefreshStore) (j : Nat) (x : RefreshTokenRec)
    (h : get_refresh_token_by_jti s j = some x) :
    get_refresh_token_by_jti (s ++ t) j = some x := by
  unfold get_refresh_token_by_jti at h ⊢
  rw [List.find?_append, h]
  rfl

/-- A hash lookup that succeeds on a store still succeeds, with the same row,
after rows are appended. -/
theorem get_by_hash_append_of_found (s t : RefreshStore) (h0 : String) (x : RefreshTokenRec)
    (h : get_by_token_hash s h0 = some x) :
    get_by_token_hash (s ++ t) h0 = some x := by
  unfold get_by_token_hash at h ⊢
  rw [List.find?_append, h]
  rfl

/-- C1 (amended): presenting an active record's correct secret with its jti
rotates it exactly once: the call succeeds, and the old record is marked
revoked with `replaced_by` set to the new jti. Afterwards no presentation of
the same secret (with any jti or none) can ever succeed again, and a
subsequent presentation accompanied by the original jti or by no jti fails
with `Invalid` and revokes every refresh token of that owner. (A subsequent
presentation with a jti matching no record fails with `Invalid` but revokes
nothing — see the counterexample to the unrestricted claim.) The hypotheses
state the freshness and uniqueness guarantees of the HMAC hash and uuid4:
the presented secret's hash identifies only this record, and the newly
generated secret and jti are fresh. -/
theorem rotate_single_use
    (hashRT : String → String) (s s2 : RefreshStore) (r : RefreshTokenRec)
    (presented_raw : String) (now : Int) (ip ua : Option String)
    (new_raw : String) (new_jti : Nat) (new_exp : Int)
    (out : Except RotateErr RotateOk)
    (Hjti : get_refresh_token_by_jti s r.jti = some r)
    (Hnotrev : r.revoked = false)
    (Hnotexp : ¬ r.expires_at < now)
    (Hhash : hashRT presented_raw = r.hashed_token)
    (Huniq : ∀ x ∈ s, x.hashed_token = hashRT presented_raw → x.jti = r.jti)
    (Hfindhash : get_by_token_hash s (hashRT presented_raw) = some r)
    (Hfreshhash : hashRT new_raw ≠ hashRT presented_raw)
    (Hfreshjti : new_jti ≠ r.jti)
    (Heq : refresh_with_refresh_token hashRT s presented_raw (some r.jti) now ip ua
             new_raw new_jti new_exp = (s2, out)) :
    out = .ok { new_raw := new_raw, new_jti := new_jti, user_id := r.user_id }
    ∧ get_refresh_token_by_jti s2 r.jti
        = some { r with revoked := true, replaced_by := some new_jti }
    ∧ (∀ (jopt : Option Nat) (now2 : Int) (ip2 ua2 : Option String)
         (nraw2 : String) (njti2 : Nat) (nexp2 : Int), ∃ e,
        (refresh_with_refresh_token hashRT s2 presented_raw jopt now2 ip2 ua2
            nraw2 njti2 nexp2).2 = .error e)
    ∧ (∀ (jopt : Option Nat) (now2 : Int) (ip2 ua2 : Option String)
         (nraw2 : String) (njti2 : Nat) (nexp2 : Int),
        jopt = some r.jti ∨ jopt = none →
        (refresh_with_refresh_token hashRT s2 presented_raw jopt now2 ip2 ua2
            nraw2 njti2 nexp2).2 = .error .invalidOrExpired
        ∧ ∀ rec ∈ (refresh_with_refresh_token hashRT s2 presented_raw jopt now2 ip2 ua2
            nraw2 njti2 nexp2).1,
            rec.user_id = r.user_id → rec.revoked = true) := by
  have hrneq : r.jti ≠ new_jti := fun hh => Hfreshjti hh.symm
  -- Evaluate the successful rotation.
  have hrot : refresh_with_refresh_token hashRT s presented_raw (some r.jti) now ip ua
      new_raw new_jti new_exp
      = (update_refresh_token_last_used
           (mark_refresh_token_replaced
             (create_refresh_token s new_jti r.user_id (hashRT new_raw) new_exp ua ip)
             r.jti new_jti) new_jti now,
         .ok { new_raw := new_raw, new_jti := new_jti, user_id := r.user_id }) := by
    unfold refresh_with_refresh_token lookup_presented
    simp only [Hjti]
    have hc1 : ¬ (r.revoked = true ∨ r.expires_at < now) := by
      rintro (hh | hh)
      · rw [Hnotrev] at hh
        exact Bool.false_ne_true hh
      · exact Hnotexp hh
    rw [if_neg hc1, if_neg (not_not_intro Hhash)]
  obtain ⟨hs2, hout⟩ : s2 = update_refresh_token_last_used
      (mark_refresh_token_replaced
        (create_refresh_token s new_jti r.user_id (hashRT new_raw) new_exp ua ip)
        r.jti new_jti) new_jti now
      ∧ out = .ok { new_raw := new_raw, new_jti := new_jti, user_id := r.user_id } := by
    have hpair := Heq.symm.trans hrot
    exact ⟨congrArg Prod.fst hpair, congrArg Prod.snd hpair⟩
  subst hs2
  -- The rotated record, as found in the post-rotation store.
  have hB1 : get_refresh_token_by_jti
      (create_refresh_token s new_jti r.user_id (hashRT new_raw) new_exp ua ip) r.jti
      = some r := by
    rw [create_refresh_token_eq_append]
    exact get_by_jti_append_of_found s _ _ r Hjti
  have hB2 : get_refresh_token_by_jti
      (mark_refresh_token_replaced
        (create_refresh_token s new_jti r.user_id (hashRT new_raw) new_exp ua ip)
        r.jti new_jti) r.jti
      = some { r with revoked := true, replaced_by := some new_jti } := by
    rw [get_by_jti_mark_replaced, hB1]
    simp
  have hB3 : get_refresh_token_by_jti
      (update_refresh_token_last_used
        (mark_refresh_token_replaced
          (create_refresh_token s new_jti r.user_id (hashRT new_raw) new_exp ua ip)
          r.jti new_jti) new_jti now) r.jti
      = some { r with revoked := true, replaced_by := some new_jti } := by
    rw [get_by_jti_update_last_used, hB2]
    simp [hrneq]
  -- Every row carrying the presented secret's hash is revoked afterwards.
  have hK : ∀ x ∈ update_refresh_token_last_used
      (mark_refresh_token_replaced
        (create_refresh_token s new_jti r.user_id (hashRT new_raw) new_exp ua ip)
        r.jti new_jti) new_jti now,
      x.hashed_token = hashRT presented_raw → x.revoked = true := by
    intro x hx hxh
    unfold update_refresh_token_last_used at hx
    rcases List.mem_map.1 hx with ⟨y, hy, rfl⟩
    unfold mark_refresh_token_replaced at hy
    rcases List.mem_map.1 hy with ⟨z, hz, rfl⟩
    rw [create_refresh_token_eq_append] at hz
    rcases List.mem_append.1 hz with hz1 | hz2
    · by_cases h1 : z.jti = r.jti
      · by_cases h2 : z.jti = new_jti
        · exact absurd (h1.symm.trans h2) hrneq
        · simp [h1, h2, hrneq]
      · have hzh : z.hashed_token = hashRT presented_raw := by
          by_cases h2 : z.jti = new_jti <;>
            simpa [h1, h2, Hfreshjti, hrneq] using hxh
        exact absurd (Huniq z hz1 hzh) h1
    · rw [List.mem_singleton] at hz2
      subst hz2
      have : hashRT new_raw = hashRT presented_raw := by
        simpa [Hfreshjti] using hxh
      exact absurd this Hfreshhash
  -- The hash lookup in the post-rotation store still finds the old record.
  have hH1 : get_by_token_hash
      (create_refresh_token s new_jti r.user_id (hashRT new_raw) new_exp ua ip)
      (hashRT presented_raw) = some r := by
    rw [create_refresh_token_eq_append]
    exact get_by_hash_append_of_found s _ _ r Hfindhash
  have hH2 : get_by_token_hash
      (mark_refresh_token_replaced
        (create_refresh_token s new_jti r.user_id (hashRT new_raw) new_exp ua ip)
        r.jti new_jti) (hashRT presented_raw)
      = some { r with revoked := true, replaced_by := some new_jti } := by
    rw [get_by_hash_mark_replaced, hH1]
    simp
  have hH3 : get_by_token_hash
      (update_refresh_token_last_used
        (mark_refresh_token_replaced
          (create_refresh_token s new_jti r.user_id (hashRT new_raw) new_exp ua ip)
          r.jti new_jti) new_jti now) (hashRT presented_raw)
      = some { r with revoked := true, replaced_by := some new_jti } := by
    rw [get_by_hash_update_last_used, hH2]
    simp [hrneq]
  refine ⟨hout, hB3, ?_, ?_⟩
  · -- No presentation of the old secret ever succeeds again.
    intro jopt now2 ip2 ua2 nraw2 njti2 nexp2
    cases jopt with
    | none =>
      refine ⟨.invalidOrExpired, ?_⟩
      unfold refresh_with_refresh_token lookup_presented
      simp only [hH3]
      simp
    | some j =>
      cases hl : get_refresh_token_by_jti
          (update_refresh_token_last_used
            (mark_refresh_token_replaced
              (create_refresh_token s new_jti r.user_id (hashRT new_raw) new_exp ua ip)
              r.jti new_jti) new_jti now) j with
      | none =>
        refine ⟨.invalidToken, ?_⟩
        unfold refresh_with_refresh_token lookup_presented
        simp only [hl]
      | some row =>
        by_cases hdead : row.revoked = true ∨ row.expires_at < now2
        · refine ⟨.invalidOrExpired, ?_⟩
          unfold refresh_with_refresh_token lookup_presented
          simp only [hl]
          rw [if_pos hdead]
        · refine ⟨.hashMismatch, ?_⟩
          have hrowmem : row ∈ update_refresh_token_last_used
              (mark_refresh_token_replaced
                (create_refresh_token s new_jti r.user_id (hashRT new_raw) new_exp ua ip)
                r.jti new_jti) new_jti now := by
            have := hl
            unfold get_refresh_token_by_jti at this
            exact List.mem_of_find?_eq_some this
          have hmm : ¬ hashRT presented_raw = row.hashed_token :=
            fun hcon => hdead (Or.inl (hK row hrowmem hcon.symm))
          unfold refresh_with_refresh_token lookup_presented
          simp only [hl]
          rw [if_neg hdead, if_pos hmm]
  · -- Presenting with the original jti or no jti also revokes the owner.
    intro jopt now2 ip2 ua2 nraw2 njti2 nexp2 hcase
    have hlk : lookup_presented hashRT
        (update_refresh_token_last_used
          (mark_refresh_token_replaced
            (create_refresh_token s new_jti r.user_id (hashRT new_raw) new_exp ua ip)
            r.jti new_jti) new_jti now) presented_raw jopt
        = some { r with revoked := true, replaced_by := some new_jti } := by
      rcases hcase with rfl | rfl
      · simpa [lookup_presented] using hB3
      · simpa [lookup_presented] using hH3
    have heval : refresh_with_refresh_token hashRT
        (update_refresh_token_last_used
          (mark_refresh_token_replaced
            (create_refresh_token s new_jti r.user_id (hashRT new_raw) new_exp ua ip)
            r.jti new_jti) new_jti now) presented_raw jopt now2 ip2 ua2 nraw2 njti2 nexp2
        = (revoke_all_refresh_tokens_for_user
            (update_refresh_token_last_used
              (mark_refresh_token_replaced
                (create_refresh_token s new_jti r.user_id (hashRT new_raw) new_exp ua ip)
                r.jti new_jti) new_jti now) r.user_id,
           .error .invalidOrExpired) := by
      unfold refresh_with_refresh_token
      rw [hlk]
      simp
    rw [heval]
    exact ⟨rfl, revoke_all_marks_owner _ r.user_id⟩

/-- C1 witness: rotating a concrete active record with its correct secret
succeeds and hands out the new secret and jti. -/
theorem rotate_single_use_witness :
    (refresh_with_refresh_token (fun x => x ++ "#")
        [{ jti := 1, user_id := 7, hashed_token := "a#", expires_at := 100, revoked := false,
           replaced_by := none, last_used_at := none, ip := none, user_agent := none }]
        "a" (some 1) 0 none none "b" 2 200).2
      = .ok { new_raw := "b", new_jti := 2, user_id := 7 } := by
  exact (rotate_single_use (fun x => x ++ "#")
    [{ jti := 1, user_id := 7, hashed_token := "a#", expires_at := 100, revoked := false,
       replaced_by := none, last_used_at := none, ip := none, user_agent := none }]
    _
    { jti := 1, user_id := 7, hashed_token := "a#", expires_at := 100, revoked := false,
      replaced_by := none, last_used_at := none, ip := none, user_agent := none }
    "a" 0 none none "b" 2 200 _
    (by decide) (by decide) (by decide) (by decide) (by decide) (by decide)
    (by decide) (by decide) rfl).1

/-- C1 counterexample: the claim asserts every subsequent Rotate call
presenting the same secret revokes all refresh tokens of that owner; after a
successful rotation, presenting the same secret together with a jti that
matches no record fails with `Invalid` but performs no revocation — the
owner's fresh token (jti 2) stays unrevoked — so the claim as stated is
false. -/
theorem rotate_reuse_unrevoked_cex :
    ((refresh_with_refresh_token (fun x => x ++ "#")
        ((refresh_with_refresh_token (fun x => x ++ "#")
          [{ jti := 1, user_id := 7, hashed_token := "a#", expires_at := 100, revoked := false,
             replaced_by := none, last_used_at := none, ip := none, user_agent := none }]
          "a" (some 1) 0 none none "b" 2 200).1)
        "a" (some 99) 5 none none "c" 3 300).2 = .error RotateErr.invalidToken)
    ∧ get_refresh_token_by_jti
        ((refresh_with_refresh_token (fun x => x ++ "#")
          ((refresh_with_refresh_token (fun x => x ++ "#")
            [{ jti := 1, user_id := 7, hashed_token := "a#", expires_at := 100, revoked := false,
               replaced_by := none, last_used_at := none, ip := none, user_agent := none }]
            "a" (some 1) 0 none none "b" 2 200).1)
          "a" (some 99) 5 none none "c" 3 300).1) 2
      = some { jti := 2, user_id := 7, hashed_token := "b#", expires_at := 200,
               revoked := false, replaced_by := none, last_used_at := some 0,
               ip := none, user_agent := none } := by
  refine ⟨by decide, by decide⟩

